import Mathlib

/-!
# Verification of the tool-execution core of the offline coding agent

This file gives a shallow embedding, in Lean 4, of the tool-execution core of
`working_assistant.py`: the sandbox path resolver, the escape-normalization
heuristic, the file tools, the command allow-list guard of `run_command`,
the timeout coercion of `execute_python` / `run_command`, the keyword-argument
dispatch of `execute_tool`, the argument-body parser of
`parse_and_execute_tools`, and the feedback synthesis of `generate_response`.

Modelling conventions:
* Python strings are Lean `String`s (a Python `len` is the codepoint count,
  which matches `String.length`).
* Filesystem paths are lists of path components under the root `/`
  (`AbsPath`); `Path.resolve()` is modelled as lexical collapsing of `.` and
  `..` components (a symlink-free filesystem).
* The filesystem itself is an explicit state (`FS`): an association list of
  file contents plus a list of existing directories.  OS-level faults
  (permissions, disk errors, encoding errors) are outside the embedding.
* Python numbers are modelled as exact rationals (`PyNum`), with the special
  float values `inf`, `-inf`, `nan` represented explicitly; binary64 rounding
  is not modelled.
* Python dict results are association lists `List (String × PyVal)`, so that
  the exact key set of each result dictionary is visible.
-/

namespace WorkingAssistant

/-- The single-quote character, `'`. -/
def sq : Char := Char.ofNat 39

/-- The double-quote character, `"`. -/
def dq : Char := Char.ofNat 34

/-- Python `\w` for ASCII text: letters, digits, underscore. -/
def isPyWord (c : Char) : Bool :=
  (c ≥ Char.ofNat 97 && c ≤ Char.ofNat 122) ||
  (c ≥ Char.ofNat 65 && c ≤ Char.ofNat 90) ||
  (c ≥ Char.ofNat 48 && c ≤ Char.ofNat 57) || c = Char.ofNat 95

/-- Python `\s` (ASCII): space, tab, newline, carriage return, form feed,
vertical tab. -/
def isPySpace (c : Char) : Bool :=
  c = Char.ofNat 32 || c = Char.ofNat 9 || c = Char.ofNat 10 ||
  c = Char.ofNat 13 || c = Char.ofNat 12 || c = Char.ofNat 11

/-- Python `str.strip()` (ASCII whitespace). -/
def pyStrip (s : String) : String :=
  String.mk (((s.data.dropWhile isPySpace).reverse.dropWhile isPySpace).reverse)

/-- `pat` occurs as a contiguous sublist of `l`. -/
def listInfix (pat : List Char) : List Char → Bool
  | [] => List.isPrefixOf pat []
  | c :: rest => List.isPrefixOf pat (c :: rest) || listInfix pat rest

/-- Python `sub in s` substring containment. -/
def containsSub (s sub : String) : Bool :=
  listInfix sub.data s.data

/-- Non-overlapping occurrence count, as Python `str.count`.  The first
argument is fuel (instantiated with the length of the scanned list). -/
def countOccsAux (pat : List Char) : Nat → List Char → Nat
  | 0, _ => 0
  | _ + 1, [] => 0
  | fuel + 1, c :: rest =>
    if pat ≠ [] ∧ List.isPrefixOf pat (c :: rest) then
      1 + countOccsAux pat fuel (List.drop (pat.length - 1) rest)
    else
      countOccsAux pat fuel rest

/-- Python `s.count(sub)` for a nonempty `sub`. -/
def countSub (s sub : String) : Nat :=
  countOccsAux sub.data s.data.length s.data

/-- Non-overlapping leftmost replacement, as Python `str.replace`.  The first
argument is fuel (instantiated with the length of the scanned list). -/
def replaceOccsAux (pat rep : List Char) : Nat → List Char → List Char
  | 0, s => s
  | _ + 1, [] => []
  | fuel + 1, c :: rest =>
    if pat ≠ [] ∧ List.isPrefixOf pat (c :: rest) then
      rep ++ replaceOccsAux pat rep fuel (List.drop (pat.length - 1) rest)
    else
      c :: replaceOccsAux pat rep fuel rest

/-- Python `s.replace(pat, rep)` for a nonempty `pat`. -/
def pyReplace (s pat rep : String) : String :=
  String.mk (replaceOccsAux pat.data rep.data s.data.length s.data)

/-- Split a character list on the first occurrence of a nonempty pattern,
returning the pieces before and after the pattern when it occurs. -/
def splitFirstAux (pat : List Char) : List Char → Option (List Char × List Char)
  | [] => if pat = [] then some ([], []) else none
  | c :: rest =>
    if List.isPrefixOf pat (c :: rest) then
      some ([], List.drop (pat.length - 1) rest)
    else
      match splitFirstAux pat rest with
      | some (pre, post) => some (c :: pre, post)
      | none => none

/-- Python `s.split(sep, 2)` for a nonempty separator: at most two splits,
left to right. -/
def pySplit3 (s sep : String) : List String :=
  match splitFirstAux sep.data s.data with
  | none => [s]
  | some (a, rest₁) =>
    match splitFirstAux sep.data rest₁ with
    | none => [String.mk a, String.mk rest₁]
    | some (b, rest₂) => [String.mk a, String.mk b, String.mk rest₂]

/-- Python `s.split(sep)` (all occurrences) for a one-character separator. -/
def pySplitChar (sep : Char) (l : List Char) : List (List Char) :=
  match l with
  | [] => [[]]
  | c :: rest =>
    let r := pySplitChar sep rest
    if c = sep then [] :: r
    else
      match r with
      | [] => [[c]]
      | h :: t => (c :: h) :: t

/-- Python `s.split(sep)` for a one-character separator, on strings. -/
def pySplitStr (s : String) (sep : Char) : List String :=
  (pySplitChar sep s.data).map String.mk

/-! ## Paths and the sandbox resolver (`_resolve_within_sandbox`) -/

/-- A resolved absolute path: the list of its components under `/`. -/
abbrev AbsPath := List String

/-- Lexical resolution starting from the absolute path `start`: empty and `.`
components are dropped, `..` removes the last component (staying at `/` when
already there), and ordinary components are appended.  This models
`pathlib.Path.resolve()` on a symlink-free filesystem. -/
def normPath (start : AbsPath) : List String → AbsPath
  | [] => start
  | c :: rest =>
    if c = "" ∨ c = "." then normPath start rest
    else if c = ".." then normPath start.dropLast rest
    else normPath (start ++ [c]) rest

/-- Whether the path string is absolute (starts with `/`). -/
def isAbsStr (s : String) : Bool :=
  s.data.head? = some (Char.ofNat 47)

/-- The `/`-separated components of a path string. -/
def pathComps (s : String) : List String :=
  pySplitStr s (Char.ofNat 47)

/-- `Path(s).resolve()` when `s` is absolute, `(cwd / s).resolve()` when it is
relative — exactly the two branches of `_resolve_within_sandbox`. -/
def resolvePath (cwd : AbsPath) (s : String) : AbsPath :=
  if isAbsStr s then normPath [] (pathComps s) else normPath cwd (pathComps s)

/-- `pathlib.PurePath.name`: the final nonempty, non-`.` component of the
path string, or the empty string. -/
def pathBaseName (s : String) : String :=
  (((pathComps s).filter (fun c => c ≠ "" ∧ c ≠ ".")).getLast?).getD ""

/-- A Python number: an exact rational, or one of the float specials.
Binary64 rounding is not modelled. -/
inductive PyNum where
  | fin (q : ℚ)
  | inf
  | ninf
  | nan
  deriving DecidableEq

/-- Python `x <= 0` on a number (`nan <= 0` and `inf <= 0` are `False`,
`-inf <= 0` is `True`). -/
def PyNum.le0 : PyNum → Bool
  | .fin q => q ≤ 0
  | .inf => false
  | .ninf => true
  | .nan => false

/-- A `subprocess.run` invocation: argument vector, timeout, working
directory, and stdin text. -/
structure SpawnSpec where
  argv : List String
  timeout : PyNum
  cwd : AbsPath
  stdin : Option String
  deriving DecidableEq

/-- The outcome of a spawned process: completion with an exit status and
captured output, or `subprocess.TimeoutExpired`. -/
inductive ProcResult where
  | completed (returncode : Int) (stdout stderr : String)
  | timedOut
  deriving DecidableEq

/-- The configuration surface of `WorkingToolManager` plus the ambient process
state it reads: the process working directory (`Path.cwd()`), the manager
fields `sandbox_root`, `working_directory` and `allowed_git_subcommands`,
`sys.executable`, and an oracle giving the outcome of any spawned process
(process execution is outside the embedding). -/
structure Config where
  cwd : AbsPath
  sandboxRoot : AbsPath
  workingDirectory : AbsPath
  allowedGitSubcommands : List String
  sysExecutable : String
  oracle : SpawnSpec → ProcResult

/-- `_resolve_within_sandbox`: resolve the path (anchored at the process
working directory when relative) and return it only when the sandbox root is
the path itself or an ancestor of it (`Path.is_relative_to`). -/
def resolve_within_sandbox (cfg : Config) (input_path : String) : Option AbsPath :=
  let p := resolvePath cfg.cwd input_path
  if List.isPrefixOf cfg.sandboxRoot p then some p else none

/-! ## The filesystem state -/

/-- The filesystem: file contents keyed by resolved path, plus the set of
directories.  An idealised store: OS-level write failures are outside the
embedding. -/
structure FS where
  files : List (AbsPath × String)
  dirs : List AbsPath
  deriving DecidableEq

/-- Look up a file by resolved path. -/
def FS.readF (st : FS) (p : AbsPath) : Option String :=
  (st.files.find? (fun kv => kv.1 = p)).map (·.2)

/-- Store a file, replacing any previous content at the same path. -/
def FS.writeF (st : FS) (p : AbsPath) (content : String) : FS :=
  ⟨(p, content) :: st.files.filter (fun kv => kv.1 ≠ p), st.dirs⟩

/-- All proper ancestors of a path (for `mkdir(parents=True)`). -/
def ancestors : AbsPath → List AbsPath
  | [] => []
  | c :: rest => [] :: (ancestors rest).map (c :: ·)

/-- `path.mkdir(parents=True, exist_ok=True)`: record the directory and all
its ancestors as existing. -/
def FS.mkdirAll (st : FS) (p : AbsPath) : FS :=
  ⟨st.files, p :: ancestors p ++ st.dirs⟩

/-- `path.parent.mkdir(parents=True, exist_ok=True)`. -/
def FS.mkdirParent (st : FS) (p : AbsPath) : FS :=
  st.mkdirAll p.dropLast

/-- Whether a directory exists in the store. -/
def FS.isDir (st : FS) (p : AbsPath) : Bool :=
  st.dirs.contains p

/-! ## Python dict results (`ToolResult`) -/

/-- A Python value appearing in a tool-result dictionary. -/
inductive PyVal where
  | pbool (b : Bool)
  | pstr (s : String)
  | pint (n : Int)
  | plist (l : List String)
  deriving DecidableEq

/-- A tool result: the result dictionary, as an association list so the exact
key set of each result is visible. -/
abbrev ToolResult := List (String × PyVal)

/-- Dictionary lookup on a result. -/
def getKey (r : ToolResult) (k : String) : Option PyVal :=
  (r.find? (fun kv => kv.1 = k)).map (·.2)

/-- `result["success"]` is `True`. -/
def isSuccess (r : ToolResult) : Bool :=
  getKey r "success" = some (.pbool true)

/-- The failed results `{"success": False, "error": e}` used throughout the
tool manager. -/
def errResult (e : String) : ToolResult :=
  [("success", .pbool false), ("error", .pstr e)]

instance {α β : Type} [DecidableEq α] [DecidableEq β] :
    DecidableEq (Except α β) := fun a b =>
  match a, b with
  | .ok x, .ok y => decidable_of_iff (x = y) (by simp)
  | .error x, .error y => decidable_of_iff (x = y) (by simp)
  | .ok _, .error _ => isFalse (by simp)
  | .error _, .ok _ => isFalse (by simp)

/-! ## The escape-normalization heuristic (`_should_unescape_model_output`) -/

/-- The `format_indicators` list of `_should_unescape_model_output`. -/
def format_indicators : List String :=
  ["---", "\x7b\\", "import ", "#include", "<?php", "<!DOCTYPE",
   "function ", "def ", "class ", "public class", "interface "]

/-- The `metadata_indicators` list of `_should_unescape_model_output`. -/
def metadata_indicators : List String :=
  ["# ", "// ", "/* ", "-- ", "TODO:", "FIXME:", "NOTE:"]

/-- `_should_unescape_model_output`: decide whether write-time content should
have literal `\n`/`\t` turned into real newlines/tabs.  Faithful transcription
of the short-circuiting checks. -/
def should_unescape_model_output (content : String) : Bool :=
  let has_escaped_newlines := containsSub content "\\n"
  let has_escaped_tabs := containsSub content "\\t"
  if ¬ (has_escaped_newlines || has_escaped_tabs) then false
  else if containsSub content "```" then false
  else if containsSub content "\\begin\x7b" || containsSub content "\\end\x7b" then false
  else if countSub content "\\\\" > 2 then false
  else if format_indicators.any (fun ind => containsSub content ind) then false
  else if metadata_indicators.any (fun ind => containsSub content ind) then false
  else if containsSub content (String.mk ['\\', dq]) ||
          containsSub content (String.mk ['\\', sq]) ||
          containsSub content "\\\\" then false
  else true

/-- The conditional normalization applied by `tool_write_file` and
`tool_append_file`: `content.replace('\\n', '\n').replace('\\t', '\t')` when
the heuristic fires, the content unchanged otherwise. -/
def normalizeContent (content : String) : String :=
  if should_unescape_model_output content then
    pyReplace (pyReplace content "\\n" "\n") "\\t" "\t"
  else content

/-! ## The file tools -/

/-- The denial message of the file tools. -/
def deniedMsg : String := "Access denied: path is outside sandbox"

/-- `tool_read_file`. -/
def tool_read_file (cfg : Config) (st : FS) (file_path : String) : ToolResult :=
  match resolve_within_sandbox cfg file_path with
  | none => errResult deniedMsg
  | some p =>
    match st.readF p with
    | none => errResult ("File not found: " ++ file_path)
    | some content =>
      [("success", .pbool true), ("content", .pstr content),
       ("message", .pstr ("Successfully read " ++ toString content.length ++ " characters"))]

/-- `tool_write_file`. -/
def tool_write_file (cfg : Config) (st : FS) (file_path content : String) :
    FS × ToolResult :=
  match resolve_within_sandbox cfg file_path with
  | none => (st, errResult deniedMsg)
  | some p =>
    let st₁ := (st.mkdirParent p)
    let c := normalizeContent content
    (st₁.writeF p c,
     [("success", .pbool true),
      ("message", .pstr ("Successfully wrote " ++ toString c.length ++
        " characters to " ++ file_path)),
      ("bytes_written", .pint c.length)])

/-- `tool_append_file`. -/
def tool_append_file (cfg : Config) (st : FS) (file_path content : String) :
    FS × ToolResult :=
  match resolve_within_sandbox cfg file_path with
  | none => (st, errResult deniedMsg)
  | some p =>
    let st₁ := (st.mkdirParent p)
    let c := normalizeContent content
    (st₁.writeF p ((st₁.readF p).getD "" ++ c),
     [("success", .pbool true),
      ("message", .pstr ("Successfully appended " ++ toString c.length ++
        " characters to " ++ file_path)),
      ("bytes_written", .pint c.length)])

/-- Insertion into an ascending list of strings (codepoint order), for
Python `sorted`. -/
def insertSorted (x : String) : List String → List String
  | [] => [x]
  | y :: rest => if x < y then x :: y :: rest else y :: insertSorted x rest

/-- Python `sorted` on strings. -/
def sortStrings (l : List String) : List String :=
  l.foldr insertSorted []

/-- The entry names directly under a directory. -/
def FS.childNames (st : FS) (p : AbsPath) : List String :=
  ((st.files.map (·.1) ++ st.dirs).filterMap (fun q =>
    if q.dropLast = p then q.getLast? else none)).dedup

/-- `tool_list_directory`. -/
def tool_list_directory (cfg : Config) (st : FS) (dir_path : String) : ToolResult :=
  match resolve_within_sandbox cfg dir_path with
  | none => errResult deniedMsg
  | some p =>
    if ¬ st.isDir p then errResult ("Directory not found: " ++ dir_path)
    else
      let entries := sortStrings (st.childNames p)
      [("success", .pbool true), ("entries", .plist entries),
       ("message", .pstr ("Found " ++ toString entries.length ++ " entries"))]

/-- `tool_create_directory`. -/
def tool_create_directory (cfg : Config) (st : FS) (dir_path : String) :
    FS × ToolResult :=
  match resolve_within_sandbox cfg dir_path with
  | none => (st, errResult deniedMsg)
  | some p =>
    (st.mkdirAll p,
     [("success", .pbool true),
      ("message", .pstr ("Successfully created directory: " ++ dir_path))])

/-! ## Python number parsing (`int(s)`, `float(s)`) -/

/-- ASCII digit test. -/
def isDigitCh (c : Char) : Bool :=
  48 ≤ c.toNat && c.toNat ≤ 57

/-- Value of an ASCII digit. -/
def digitVal (c : Char) : Nat := c.toNat - 48

/-- Consume a run of digits in which single underscores may stand between two
digits, extending the accumulated value and digit count.  The first argument
is fuel (instantiated with the length of the list). -/
def udigitsLoop : Nat → List Char → Nat → Nat → (Nat × Nat × List Char)
  | 0, l, acc, k => (acc, k, l)
  | _ + 1, [], acc, k => (acc, k, [])
  | fuel + 1, c :: rest, acc, k =>
    if isDigitCh c then udigitsLoop fuel rest (10 * acc + digitVal c) (k + 1)
    else if c = Char.ofNat 95 then
      match rest with
      | d :: rest₂ =>
        if isDigitCh d then udigitsLoop fuel rest₂ (10 * acc + digitVal d) (k + 1)
        else (acc, k, c :: rest)
      | [] => (acc, k, [c])
    else (acc, k, c :: rest)

/-- Parse a nonempty digit run (underscores allowed between digits), returning
its value, its digit count, and the remaining characters. -/
def parseUDigits (l : List Char) : Option (Nat × Nat × List Char) :=
  match l with
  | [] => none
  | c :: _ =>
    if isDigitCh c then some (udigitsLoop l.length l 0 0) else none

/-- Consume an optional leading sign, returning whether it was `-`. -/
def stripSign (l : List Char) : Bool × List Char :=
  match l with
  | c :: rest =>
    if c = '+' then (false, rest)
    else if c = '-' then (true, rest)
    else (false, l)
  | [] => (false, [])

/-- Python `int(s)` on ASCII text: optional surrounding whitespace, optional
sign, then a base-10 digit run with underscores between digits. -/
def pyInt (s : String) : Option Int :=
  let t := (pyStrip s).data
  let (neg, r) := stripSign t
  match parseUDigits r with
  | some (n, _, []) => some (if neg then -(n : Int) else (n : Int))
  | _ => none

/-- Lower-case a character list (for `float`'s special spellings). -/
def lowerChars (l : List Char) : List Char := l.map Char.toLower

/-- Python `str.lower()` on ASCII text (`String.toLower`, re-implemented so
that it reduces in the kernel). -/
def lowerStr (s : String) : String := String.mk (lowerChars s.data)

/-- Parse the decimal part of a float literal after the sign:
`digits [. [digits]] [exponent]` or `. digits [exponent]`, with exact
rational value.  The value is a fraction built with `mkRat` from integer
arithmetic (numerator over a power of ten). -/
def parseFloatBody (r : List Char) : Option ℚ :=
  let withExp : Int → Nat → List Char → Option ℚ := fun num den rest =>
    match rest with
    | [] => some (mkRat num den)
    | e :: r₄ =>
      if e = 'e' ∨ e = 'E' then
        let (eneg, r₅) := stripSign r₄
        match parseUDigits r₅ with
        | some (ev, _, []) =>
          some (if eneg then mkRat num (den * 10 ^ ev)
                else mkRat (num * (10 : Int) ^ ev) den)
        | _ => none
      else none
  match parseUDigits r with
  | some (ip, _, r₁) =>
    match r₁ with
    | [] => some (mkRat ip 1)
    | c :: r₂ =>
      if c = '.' then
        match parseUDigits r₂ with
        | some (fp, k, r₃) =>
          withExp ((ip : Int) * (10 : Int) ^ k + (fp : Int)) (10 ^ k) r₃
        | none => withExp ip 1 r₂
      else withExp ip 1 r₁
  | none =>
    match r with
    | c :: r₂ =>
      if c = '.' then
        match parseUDigits r₂ with
        | some (fp, k, r₃) => withExp fp (10 ^ k) r₃
        | none => none
      else none
    | [] => none

/-- Python `float(s)` on ASCII text: optional whitespace and sign, then a
decimal literal or one of the specials `inf`, `infinity`, `nan`
(case-insensitive).  The value is the exact rational (binary64 rounding is
not modelled). -/
def pyFloat (s : String) : Option PyNum :=
  let t := (pyStrip s).data
  let (neg, r) := stripSign t
  let low := lowerChars r
  if low = "inf".data ∨ low = "infinity".data then
    some (if neg then .ninf else .inf)
  else if low = "nan".data then some .nan
  else
    match parseFloatBody r with
    | some q => some (.fin (if neg then -q else q))
    | none => none

/-! ## Timeout coercion -/

/-- A `timeout` argument: a number (e.g. the default `30`) or a string from
the call parser. -/
inductive TimeoutVal where
  | num (x : PyNum)
  | str (s : String)
  deriving DecidableEq

/-- The timeout coercion and positivity check of `tool_execute_python`
(lines 158–165): strings go through `float`, then `timeout <= 0` is
rejected. -/
def validate_timeout_py : TimeoutVal → Except String PyNum
  | .str s =>
    match pyFloat s with
    | none => .error "Timeout must be a valid number"
    | some x =>
      if x.le0 then .error "Timeout must be a positive number" else .ok x
  | .num x =>
    if x.le0 then .error "Timeout must be a positive number" else .ok x

/-- The timeout coercion and positivity check of `tool_run_command`
(lines 214–222): strings go through `int`, then `timeout <= 0` is
rejected. -/
def validate_timeout_run : TimeoutVal → Except String PyNum
  | .str s =>
    match pyInt s with
    | none => .error "Timeout must be a valid number"
    | some n =>
      if (PyNum.fin n).le0 then .error "Timeout must be a positive number"
      else .ok (.fin n)
  | .num x =>
    if x.le0 then .error "Timeout must be a positive number" else .ok x

/-! ## `shlex.split` (POSIX mode, whitespace splitting) -/

/-- The single-quote string. -/
def sqs : String := String.mk [sq]

/-- Lexer state of `shlex` in POSIX mode. -/
inductive ShState where
  | out
  | single
  | double
  | escO
  | escD
  deriving DecidableEq

/-- `shlex` whitespace: space, tab, carriage return, newline. -/
def isShWhitespace (c : Char) : Bool :=
  c = Char.ofNat 32 || c = Char.ofNat 9 || c = Char.ofNat 13 || c = Char.ofNat 10

/-- One pass of the `shlex` POSIX lexer.  `cur = none` means no token is in
progress; quotes open a (possibly empty) token.  Errors are the `ValueError`
messages `shlex` raises. -/
def shlexAux : ShState → Option (List Char) → List (List Char) →
    List Char → Except String (List String)
  | .out, cur, acc, [] =>
    .ok ((acc ++ (match cur with | some t => [t] | none => [])).map String.mk)
  | .single, _, _, [] => .error "No closing quotation"
  | .double, _, _, [] => .error "No closing quotation"
  | .escO, _, _, [] => .error "No escaped character"
  | .escD, _, _, [] => .error "No escaped character"
  | .out, cur, acc, c :: rest =>
    if isShWhitespace c then
      shlexAux .out none
        (acc ++ (match cur with | some t => [t] | none => [])) rest
    else if c = sq then shlexAux .single (some (cur.getD [])) acc rest
    else if c = dq then shlexAux .double (some (cur.getD [])) acc rest
    else if c = '\\' then shlexAux .escO (some (cur.getD [])) acc rest
    else shlexAux .out (some (cur.getD [] ++ [c])) acc rest
  | .escO, cur, acc, c :: rest =>
    shlexAux .out (some (cur.getD [] ++ [c])) acc rest
  | .single, cur, acc, c :: rest =>
    if c = sq then shlexAux .out cur acc rest
    else shlexAux .single (some (cur.getD [] ++ [c])) acc rest
  | .double, cur, acc, c :: rest =>
    if c = dq then shlexAux .out cur acc rest
    else if c = '\\' then shlexAux .escD cur acc rest
    else shlexAux .double (some (cur.getD [] ++ [c])) acc rest
  | .escD, cur, acc, c :: rest =>
    if c = dq ∨ c = '\\' then shlexAux .double (some (cur.getD [] ++ [c])) acc rest
    else shlexAux .double (some (cur.getD [] ++ ['\\', c])) acc rest

/-- `shlex.split(command)`. -/
def pyShlexSplit (s : String) : Except String (List String) :=
  shlexAux .out none [] s.data

/-! ## `tool_run_command` and `tool_execute_python` -/

/-- The outcome of the validation phase of a process-spawning tool: a
`subprocess.run` invocation, or a failed result with an error message and no
process spawned. -/
inductive RunOutcome where
  | spawn (sp : SpawnSpec)
  | fail (e : String)
  deriving DecidableEq

/-- The arguments of `tool_run_command` (`input` is the stdin text). -/
structure RunArgs where
  command : String
  timeout : TimeoutVal
  cwd : Option String
  input : Option String
  deriving DecidableEq

/-- The fixed program allow-list of `tool_run_command`. -/
def allowed_programs : List String :=
  ["python", "python3", "pip", "pytest", "echo", "git"]

/-- The `cwd`-independent validation phase of `tool_run_command`
(lines 209–255): command shape, timeout coercion, the `"None"`/`"none"`
sentinel for `input`, `shlex` word splitting, the program allow-list
(first token base name, lower-cased), interpreter normalization, and the
git subcommand allow-list — returning the argument vector, coerced timeout
and stdin text when all checks pass. -/
def run_command_prevalidate (cfg : Config) (command : String)
    (timeout : TimeoutVal) (inp₀ : Option String) :
    Except String (List String × PyNum × Option String) :=
  if pyStrip command = "" then .error "Command must be a non-empty string"
  else
    match validate_timeout_run timeout with
    | .error e => .error e
    | .ok t =>
      let inp := if inp₀ = some "None" ∨ inp₀ = some "none" then none else inp₀
      match pyShlexSplit command with
      | .error e => .error e
      | .ok [] => .error "Empty command"
      | .ok (p0 :: rest) =>
        let prog := lowerStr (pathBaseName p0)
        if prog ∉ allowed_programs then
          .error ("Command " ++ sqs ++ prog ++ sqs ++ " is not allowed")
        else
          let argv :=
            if prog = "python" ∨ prog = "python3" then cfg.sysExecutable :: rest
            else p0 :: rest
          let gitErr : Option String :=
            if prog = "git" then
              match rest with
              | [] => some "git subcommand required"
              | subc :: _ =>
                if subc.data.head? = some '-' then some "git subcommand required"
                else if subc ∉ cfg.allowedGitSubcommands then
                  some ("git subcommand " ++ sqs ++ subc ++ sqs ++ " is not allowed")
                else none
            else none
          match gitErr with
          | some e => .error e
          | none => .ok (argv, t, inp)

/-- The validation phase of `tool_run_command` (lines 209–276): the
`cwd`-independent checks, then the `"None"`/`"none"` sentinel for `cwd` and
its sandbox resolution — returning either the `subprocess.run` invocation or
the failure.  (In the source the `cwd` sentinel is normalized before the
word split, but no check in between reads it, so the sequencing is
equivalent.) -/
def run_command_outcome (cfg : Config) (a : RunArgs) : RunOutcome :=
  match run_command_prevalidate cfg a.command a.timeout a.input with
  | .error e => .fail e
  | .ok (argv, t, inp) =>
    let cwdArg := if a.cwd = some "None" ∨ a.cwd = some "none" then none else a.cwd
    match cwdArg with
    | some cs =>
      match resolve_within_sandbox cfg cs with
      | none => .fail "Access denied: cwd is outside sandbox"
      | some wd => .spawn ⟨argv, t, wd, inp⟩
    | none => .spawn ⟨argv, t, cfg.workingDirectory, inp⟩

/-- `tool_run_command`: the validation phase followed by the process outcome
supplied by the oracle. -/
def tool_run_command (cfg : Config) (a : RunArgs) : ToolResult :=
  match run_command_outcome cfg a with
  | .fail e => errResult e
  | .spawn sp =>
    match cfg.oracle sp with
    | .timedOut => errResult "Command timed out"
    | .completed rc out err =>
      [("success", .pbool (rc = 0)), ("stdout", .pstr out),
       ("stderr", .pstr err), ("message", .pstr "Command executed")]

/-- The arguments of `tool_execute_python`. -/
structure PyArgs where
  code : Option String
  file_path : Option String
  timeout : TimeoutVal
  deriving DecidableEq

/-- The validation phase of `tool_execute_python` (lines 157–187): timeout
coercion through `float`, then the `file_path` branch (existence checked, but
NOT routed through the sandbox resolver) or the `code` branch.  Python
truthiness: an empty string argument counts as absent. -/
def execute_python_outcome (cfg : Config) (st : FS) (a : PyArgs) : RunOutcome :=
  match validate_timeout_py a.timeout with
  | .error e => .fail e
  | .ok t =>
    match a.file_path with
    | some fp =>
      if fp = "" then
        match a.code with
        | some c =>
          if c = "" then
            .fail ("Either " ++ sqs ++ "code" ++ sqs ++ " or " ++ sqs ++
              "file_path" ++ sqs ++ " must be provided")
          else .spawn ⟨[cfg.sysExecutable, "-c", c], t, cfg.workingDirectory, none⟩
        | none =>
          .fail ("Either " ++ sqs ++ "code" ++ sqs ++ " or " ++ sqs ++
            "file_path" ++ sqs ++ " must be provided")
      else
        let p := resolvePath cfg.cwd fp
        if (st.readF p).isSome ∨ st.isDir p then
          .spawn ⟨[cfg.sysExecutable, fp], t, cfg.workingDirectory, none⟩
        else .fail ("File not found: " ++ fp)
    | none =>
      match a.code with
      | some c =>
        if c = "" then
          .fail ("Either " ++ sqs ++ "code" ++ sqs ++ " or " ++ sqs ++
            "file_path" ++ sqs ++ " must be provided")
        else .spawn ⟨[cfg.sysExecutable, "-c", c], t, cfg.workingDirectory, none⟩
      | none =>
        .fail ("Either " ++ sqs ++ "code" ++ sqs ++ " or " ++ sqs ++
          "file_path" ++ sqs ++ " must be provided")

/-- `tool_execute_python`: the validation phase followed by the process
outcome supplied by the oracle. -/
def tool_execute_python (cfg : Config) (st : FS) (a : PyArgs) : ToolResult :=
  match execute_python_outcome cfg st a with
  | .fail e => errResult e
  | .spawn sp =>
    match cfg.oracle sp with
    | .timedOut => errResult "Execution timed out"
    | .completed rc out err =>
      [("success", .pbool (rc = 0)), ("stdout", .pstr out),
       ("stderr", .pstr err), ("message", .pstr "Execution completed")]

/-! ## `execute_tool`: dispatch and keyword-argument binding -/

/-- A parsed argument mapping: keys to string values, in insertion order
(duplicate-free, as produced by a Python dict). -/
abbrev Args := List (String × String)

/-- Dictionary lookup on an argument mapping. -/
def argsGet (args : Args) (k : String) : Option String :=
  (args.find? (fun kv => kv.1 = k)).map (·.2)

/-- A name in quotes, as Python error messages print it. -/
def quoteName (k : String) : String := sqs ++ k ++ sqs

/-- The declared keyword parameters of each `tool_*` method:
(required, optional). -/
def toolSig : String → Option (List String × List String)
  | "read_file" => some (["file_path"], [])
  | "write_file" => some (["file_path", "content"], [])
  | "append_file" => some (["file_path", "content"], [])
  | "list_directory" => some (["dir_path"], [])
  | "create_directory" => some (["dir_path"], [])
  | "execute_python" => some ([], ["code", "file_path", "timeout"])
  | "run_command" => some (["command"], ["timeout", "cwd", "input"])
  | _ => none

/-- The `TypeError` raised by Python keyword binding
(`tool_function(**tool_args)`) when an argument key is not a declared
parameter or a required parameter is missing; `none` when binding succeeds.
The message text is modelled canonically (Python's exact wording varies by
version). -/
def bindError (tname : String) (req opt : List String) (args : Args) :
    Option String :=
  match args.find? (fun kv => ¬ (kv.1 ∈ req ∨ kv.1 ∈ opt)) with
  | some kv =>
    some ("tool_" ++ tname ++ "() got an unexpected keyword argument " ++
      quoteName kv.1)
  | none =>
    match req.filter (fun k => (argsGet args k).isNone) with
    | [] => none
    | [m] =>
      some ("tool_" ++ tname ++ "() missing 1 required positional argument: " ++
        quoteName m)
    | m₁ :: ms =>
      some ("tool_" ++ tname ++ "() missing " ++ toString (ms.length + 1) ++
        " required positional arguments: " ++ quoteName m₁ ++ " and " ++
        String.intercalate " and " (ms.map quoteName))

/-- The timeout argument passed to a spawning tool: the parsed string when
present, the default `30` otherwise. -/
def timeoutArg (args : Args) : TimeoutVal :=
  match argsGet args "timeout" with
  | some s => .str s
  | none => .num (.fin 30)

/-- Dispatch a bound call to the corresponding `tool_*` method. -/
def dispatchTool (cfg : Config) (st : FS) : String → Args → FS × ToolResult
  | "read_file", args =>
    (st, tool_read_file cfg st ((argsGet args "file_path").getD ""))
  | "write_file", args =>
    tool_write_file cfg st ((argsGet args "file_path").getD "")
      ((argsGet args "content").getD "")
  | "append_file", args =>
    tool_append_file cfg st ((argsGet args "file_path").getD "")
      ((argsGet args "content").getD "")
  | "list_directory", args =>
    (st, tool_list_directory cfg st ((argsGet args "dir_path").getD ""))
  | "create_directory", args =>
    tool_create_directory cfg st ((argsGet args "dir_path").getD "")
  | "execute_python", args =>
    (st, tool_execute_python cfg st
      ⟨argsGet args "code", argsGet args "file_path", timeoutArg args⟩)
  | "run_command", args =>
    (st, tool_run_command cfg
      ⟨(argsGet args "command").getD "", timeoutArg args,
       argsGet args "cwd", argsGet args "input"⟩)
  | _, _ => (st, errResult "unreachable")

/-- The body of `execute_tool` with the raised exceptions explicit: the
`getattr` lookup (an unknown tool is a returned error result, not an
exception), then keyword binding (whose `TypeError` is a raised exception),
then the tool call (the `tool_*` bodies catch internally and return results).
An `Except.error` is an exception crossing the `try` boundary. -/
def execute_tool_checked (cfg : Config) (st : FS) (name : String)
    (args : Args) : Except String (FS × ToolResult) :=
  match toolSig name with
  | none => .ok (st, errResult ("Tool " ++ quoteName name ++ " not found"))
  | some (req, opt) =>
    match bindError name req opt args with
    | some e => .error e
    | none => .ok (dispatchTool cfg st name args)

/-- `execute_tool`: the `try`/`except` wrapper converting any raised
exception into a failed result. -/
def execute_tool (cfg : Config) (st : FS) (name : String) (args : Args) :
    FS × ToolResult :=
  match execute_tool_checked cfg st name args with
  | .ok x => x
  | .error e => (st, errResult e)

/-! ## The call parser: argument-body parsing in `parse_and_execute_tools` -/

/-- The `'''` marker. -/
def sqs3 : String := String.mk [sq, sq, sq]

/-- The `"""` marker. -/
def dqs3 : String := String.mk [dq, dq, dq]

/-- Python dict assignment `args[k] = v` on an association list: replace in
place when the key exists, append otherwise. -/
def dinsert (args : Args) (k v : String) : Args :=
  if (argsGet args k).isSome then
    args.map (fun kv => if kv.1 = k then (k, v) else kv)
  else args ++ [(k, v)]

/-- `re.search(r'(\w+)\s*=\s*$', s.strip())`: the identifier adjacent
(modulo whitespace) to a trailing `=`. -/
def lastParamName (s : String) : Option String :=
  match (pyStrip s).data.reverse with
  | c :: rest =>
    if c = '=' then
      let w := (rest.dropWhile isPySpace).takeWhile isPyWord
      if w = [] then none else some (String.mk w.reverse)
    else none
  | [] => none

/-- Whether a character list matches the regex tail `,?\s*\w+\s*=\s*$`
(deterministic: comma, whitespace, word characters and `=` are disjoint). -/
def tailMatchesParamEq (l : List Char) : Bool :=
  let l₁ := match l with
            | c :: rest => if c = ',' then rest else l
            | [] => l
  let l₂ := l₁.dropWhile isPySpace
  let w := l₂.takeWhile isPyWord
  if w = [] then false
  else
    match (l₂.dropWhile isPyWord).dropWhile isPySpace with
    | c :: rest => c = '=' && (rest.dropWhile isPySpace = [])
    | [] => false

/-- `re.match(r'(.*?),?\s*\w+\s*=\s*$', s)`: the lazy group is the shortest
prefix whose remainder matches the tail; `none` when no split point works. -/
def findLazySplit : List Char → Option (List Char)
  | [] => if tailMatchesParamEq [] then some [] else none
  | c :: rest =>
    if tailMatchesParamEq (c :: rest) then some []
    else (findLazySplit rest).map (fun pre => c :: pre)

/-- Strip one matching pair of surrounding quote characters from a value. -/
def stripMatchingQuotes (v : String) : String :=
  match v.data with
  | [] => v
  | c :: _ =>
    if (c = dq ∧ v.data.getLast? = some dq) ∨
       (c = sq ∧ v.data.getLast? = some sq) then
      String.mk ((v.data.drop 1).dropLast)
    else v

/-- Parse one `key=value` pair (split once on the first `=`, trim, strip
matching quotes) into the mapping; a pair with no `=` is silently dropped. -/
def parsePairInto (args : Args) (pair : String) : Args :=
  match splitFirstAux ['='] pair.data with
  | some (k, v) =>
    dinsert args (pyStrip (String.mk k)) (stripMatchingQuotes (pyStrip (String.mk v)))
  | none => args

/-- The simple-parameter parsing applied to the text before a triple-quoted
parameter: plain split on commas, trim, drop empties. -/
def parseSimpleParamsPre (s : String) (args : Args) : Args :=
  (((pySplitStr s ',').map pyStrip).filter (fun p => p ≠ "")).foldl parsePairInto args

/-- The quote-aware comma split of the simple `key=value` branch
(character-by-character scan tracking quote state). -/
def smartSplitAux : List Char → Bool → Option Char → List Char →
    List String → List String
  | [], _, _, cur, acc =>
    acc ++ (if pyStrip (String.mk cur) ≠ "" then [pyStrip (String.mk cur)] else [])
  | c :: rest, inq, qc, cur, acc =>
    if (c = dq ∨ c = sq) ∧ (¬ inq ∨ some c = qc) then
      smartSplitAux rest (¬ inq) (if inq then none else some c) (cur ++ [c]) acc
    else if c = ',' ∧ ¬ inq then
      smartSplitAux rest inq qc []
        (acc ++ (if pyStrip (String.mk cur) ≠ "" then [pyStrip (String.mk cur)] else []))
    else smartSplitAux rest inq qc (cur ++ [c]) acc

/-- The simple `key=value` argument-body branch. -/
def parseSimpleBody (a : String) : Args :=
  (smartSplitAux a.data false none [] []).foldl parsePairInto []

/-- The marker used by the triple-quote branch (`'''` preferred when both
occur). -/
def chooseMarker (a : String) : String :=
  if containsSub a sqs3 then sqs3 else dqs3

/-- The triple-quote argument-body branch: split on the first two occurrences
of the marker; when at least two occurrences exist and the text before the
opening marker is nonblank, parse the simple parameters of its lazy-match
prefix and bind the span between the markers, verbatim, to the trailing
parameter name. -/
def parseTripleBody (a : String) : Args :=
  let qt := chooseMarker a
  match pySplit3 a qt with
  | [pre, mid, _] =>
    if pyStrip pre ≠ "" then
      let args₁ :=
        match findLazySplit pre.data with
        | some simple => parseSimpleParamsPre (String.mk simple) []
        | none => []
      match lastParamName pre with
      | some pname => dinsert args₁ pname mid
      | none => args₁
    else []
  | _ => []

/-- The argument-body parser of `parse_and_execute_tools` (lines 519–598):
empty body → empty mapping; a body containing a triple-quote marker uses the
triple-quote branch, any other body the simple `key=value` branch. -/
def parseArgsBody (args_str : String) : Args :=
  if pyStrip args_str = "" then []
  else
    let a := pyStrip args_str
    if containsSub a sqs3 ∨ containsSub a dqs3 then parseTripleBody a
    else parseSimpleBody a

/-! ## Feedback synthesis in the orchestration loop (`generate_response`) -/

/-- One entry of the per-iteration tool-result list: the tool name, and its
result when one was recorded (`none` covers skipped entries, for which
`result.get("result", {})` is empty). -/
structure LoopEntry where
  tool : String
  result : Option ToolResult
  deriving DecidableEq

/-- `tool_result.get('bytes_written', 0)`. -/
def bytesOrZero (r : ToolResult) : Int :=
  match getKey r "bytes_written" with
  | some (.pint n) => n
  | _ => 0

/-- The placeholder-corrective feedback text. -/
def correctiveMsg (n : Int) : String :=
  "❌ ERROR: You wrote only " ++ toString n ++ " characters. " ++
  "This is TOO SHORT and looks like a placeholder. " ++
  "Write the COMPLETE content NOW (minimum 100 characters for summaries)."

/-- The string value at a key, defaulting. -/
def strKeyOr (r : ToolResult) (k dflt : String) : String :=
  match getKey r k with
  | some (.pstr s) => s
  | _ => dflt

/-- The feedback line synthesized for one tool result (lines 772–805):
a successful `write_file` below the 100-byte threshold gets the corrective
instruction instead of its success message; successful reads get their
content (truncated past 2000 characters) with the do-not-re-read note;
process output gets stdout; other successes the message; failures the error
string.  This is a pure function of the recorded result — it does not
re-invoke any tool. -/
def feedbackFor (e : LoopEntry) : String :=
  match e.result with
  | some r =>
    if isSuccess r then
      if e.tool = "write_file" ∧ bytesOrZero r < 100 then
        correctiveMsg (bytesOrZero r)
      else if (getKey r "content").isSome then
        let content := strKeyOr r "content" ""
        let shown :=
          if content.length > 2000 then
            content.take 2000 ++ "\n... (truncated, total " ++
              toString content.length ++ " chars)"
          else content
        "📄 File content below (DO NOT re-read this file):\n---\n" ++ shown ++ "\n---"
      else if (getKey r "stdout").isSome then
        "✓ Command output:\n" ++ strKeyOr r "stdout" ""
      else
        "✓ " ++ e.tool ++ ": " ++ strKeyOr r "message" "Done"
    else
      "Tool " ++ quoteName e.tool ++ " failed: " ++ strKeyOr r "error" "Unknown error"
  | none => "Tool " ++ quoteName e.tool ++ " failed: Unknown error"

/-! # Theorems -/

/-- A sample configuration used to instantiate concrete inputs: sandbox root
`/s`, process working directory `/s`, the default git subcommand allow-list,
and an oracle reporting clean completion. -/
def cfgS : Config :=
  ⟨["s"], ["s"], ["s"],
   ["init", "config", "status", "add", "commit", "diff", "log", "restore"],
   "PYEXE", fun _ => .completed 0 "" ""⟩

/-- A sample configuration whose process working directory `/x` lies outside
the sandbox root `/r`. -/
def cfgX : Config :=
  ⟨["x"], ["r"], ["x"],
   ["init", "config", "status", "add", "commit", "diff", "log", "restore"],
   "PYEXE", fun _ => .completed 0 "" ""⟩

/-- **C1.** For every file-tool invocation (`read_file`, `write_file`,
`append_file`, `list_directory`, `create_directory`, and `run_command`'s
`cwd`) whose argument path canonicalizes to a location that is neither the
sandbox root nor a descendant of it, the tool returns the failed
access-denied result and performs no filesystem mutation (the returned state
is the input state).  For `run_command`, no process is spawned, and whenever
the `cwd`-independent validation would otherwise spawn, the failure is
exactly the access-denied error (`"None"`/`"none"` are the string sentinels
meaning an absent `cwd`). -/
theorem c1_outside_sandbox_denied (cfg : Config) (st : FS) (p content : String)
    (h : resolve_within_sandbox cfg p = none) :
    tool_read_file cfg st p = errResult deniedMsg ∧
    tool_write_file cfg st p content = (st, errResult deniedMsg) ∧
    tool_append_file cfg st p content = (st, errResult deniedMsg) ∧
    tool_list_directory cfg st p = errResult deniedMsg ∧
    tool_create_directory cfg st p = (st, errResult deniedMsg) ∧
    (∀ command tv inp sp, p ≠ "None" → p ≠ "none" →
      run_command_outcome cfg ⟨command, tv, some p, inp⟩ ≠ RunOutcome.spawn sp) ∧
    (∀ command tv inp sp, p ≠ "None" → p ≠ "none" →
      run_command_outcome cfg ⟨command, tv, none, inp⟩ = RunOutcome.spawn sp →
      run_command_outcome cfg ⟨command, tv, some p, inp⟩ =
        RunOutcome.fail "Access denied: cwd is outside sandbox") := by
  refine ⟨by simp [tool_read_file, h], by simp [tool_write_file, h],
          by simp [tool_append_file, h], by simp [tool_list_directory, h],
          by simp [tool_create_directory, h], ?_, ?_⟩
  · intro command tv inp sp hp1 hp2
    unfold run_command_outcome
    cases hpre : run_command_prevalidate cfg command tv inp with
    | error e => simp
    | ok trip =>
      obtain ⟨argv, t, i⟩ := trip
      simp [hp1, hp2, h]
  · intro command tv inp sp hp1 hp2 hspawn
    unfold run_command_outcome at hspawn ⊢
    cases hpre : run_command_prevalidate cfg command tv inp with
    | error e => rw [hpre] at hspawn; exact absurd hspawn (by simp)
    | ok trip =>
      obtain ⟨argv, t, i⟩ := trip
      simp [hp1, hp2, h]


/-- Witness for C1: the traversal path `../etc/x` resolves outside the
sandbox root `/s`; `read_file` is denied, `write_file` is denied without
mutating the state, and `run_command` with that `cwd` fails with the
access-denied error. -/
theorem c1_outside_sandbox_denied_witness :
    resolve_within_sandbox cfgS "../etc/x" = none ∧
    tool_read_file cfgS ⟨[], []⟩ "../etc/x" = errResult deniedMsg ∧
    tool_write_file cfgS ⟨[], []⟩ "../etc/x" "data" = (⟨[], []⟩, errResult deniedMsg) ∧
    run_command_outcome cfgS ⟨"echo hi", .num (.fin 30), some "../etc/x", none⟩ =
      RunOutcome.fail "Access denied: cwd is outside sandbox" := by
  have h := c1_outside_sandbox_denied cfgS ⟨[], []⟩ "../etc/x" "data" rfl
  exact ⟨rfl, h.1, h.2.1,
    h.2.2.2.2.2.2 "echo hi" (.num (.fin 30)) none
      ⟨["echo", "hi"], .fin 30, ["s"], none⟩
      (by decide) (by decide) (by decide)⟩

/-- **C2.** For every `run_command` invocation that passes the earlier
command-shape and timeout checks, if the first token's base name (lower-cased)
is not in the fixed program allow-list, the call fails with the not-allowed
error; and if the program is git, a missing (or flag-shaped) second token or
a second token outside the git subcommand allow-list likewise fails.  In all
these cases the outcome is a `.fail`, never a `.spawn` — no process is
spawned (the final conjunct states this disjointness explicitly). -/
theorem c2_allowlist_guard (cfg : Config) (command p0 : String)
    (rest : List String) (tv : TimeoutVal) (t : PyNum) (cwd inp : Option String)
    (hc : pyStrip command ≠ "")
    (ht : validate_timeout_run tv = .ok t)
    (hs : pyShlexSplit command = .ok (p0 :: rest)) :
    (lowerStr (pathBaseName p0) ∉ allowed_programs →
      run_command_outcome cfg ⟨command, tv, cwd, inp⟩ =
        .fail ("Command " ++ sqs ++ lowerStr (pathBaseName p0) ++ sqs ++
          " is not allowed")) ∧
    (lowerStr (pathBaseName p0) = "git" → rest = [] →
      run_command_outcome cfg ⟨command, tv, cwd, inp⟩ =
        .fail "git subcommand required") ∧
    (∀ sub rest₂, lowerStr (pathBaseName p0) = "git" → rest = sub :: rest₂ →
      sub ∉ cfg.allowedGitSubcommands →
      run_command_outcome cfg ⟨command, tv, cwd, inp⟩ =
        .fail (if sub.data.head? = some '-' then "git subcommand required"
               else "git subcommand " ++ sqs ++ sub ++ sqs ++ " is not allowed")) ∧
    (∀ e sp, run_command_outcome cfg ⟨command, tv, cwd, inp⟩ = .fail e →
      run_command_outcome cfg ⟨command, tv, cwd, inp⟩ ≠ .spawn sp) := by
  have hmemg : "git" ∈ allowed_programs := by decide
  refine ⟨?_, ?_, ?_, ?_⟩
  · intro hprog
    unfold run_command_outcome run_command_prevalidate
    simp [hc, ht, hs, hprog]
  · intro hgit hrest
    subst hrest
    unfold run_command_outcome run_command_prevalidate
    simp [hc, ht, hs, hgit, hmemg]
  · intro sub rest₂ hgit hrest hsub
    subst hrest
    unfold run_command_outcome run_command_prevalidate
    by_cases hdash : sub.data.head? = some '-'
    · simp [hc, ht, hs, hgit, hmemg, hdash]
    · simp [hc, ht, hs, hgit, hmemg, hdash, hsub]
  · intro e sp hfail
    rw [hfail]
    simp

/-- Witness for C2: `curl http://x` (program not allow-listed) and
`git push` (subcommand not allow-listed) both fail without spawning. -/
theorem c2_allowlist_guard_witness :
    pyStrip "curl http://x" ≠ "" ∧
    pyShlexSplit "curl http://x" = .ok ["curl", "http://x"] ∧
    run_command_outcome cfgS ⟨"curl http://x", .num (.fin 30), none, none⟩ =
      .fail ("Command " ++ sqs ++ "curl" ++ sqs ++ " is not allowed") ∧
    run_command_outcome cfgS ⟨"git push", .num (.fin 30), none, none⟩ =
      .fail ("git subcommand " ++ sqs ++ "push" ++ sqs ++ " is not allowed") := by
  refine ⟨by decide, by rfl, ?_, ?_⟩
  · exact (c2_allowlist_guard cfgS "curl http://x" "curl" ["http://x"]
      (.num (.fin 30)) (.fin 30) none none (by decide) rfl rfl).1 (by decide)
  · have h := (c2_allowlist_guard cfgS "git push" "git" ["push"]
      (.num (.fin 30)) (.fin 30) none none (by decide) rfl rfl).2.2.1
      "push" [] rfl rfl (by decide)
    simpa using h

/-- A well-formed tool result: it has a Boolean `success` entry, and carries
an `error` string or a `message` string (a payload).  This is the `ToolResult`
shape the orchestration loop consumes. -/
def wellFormedResult (r : ToolResult) : Prop :=
  (getKey r "success" = some (.pbool true) ∨
   getKey r "success" = some (.pbool false)) ∧
  ((∃ e, getKey r "error" = some (.pstr e)) ∨
   (∃ m, getKey r "message" = some (.pstr m)))

theorem wf_errResult (e : String) : wellFormedResult (errResult e) :=
  ⟨Or.inr rfl, Or.inl ⟨e, rfl⟩⟩

theorem wf_tool_read_file (cfg : Config) (st : FS) (p : String) :
    wellFormedResult (tool_read_file cfg st p) := by
  unfold tool_read_file
  rcases h : resolve_within_sandbox cfg p with _ | q
  · exact wf_errResult _
  · dsimp only
    rcases h2 : st.readF q with _ | content
    · exact wf_errResult _
    · exact ⟨Or.inl rfl, Or.inr ⟨_, rfl⟩⟩

theorem wf_tool_write_file (cfg : Config) (st : FS) (p c : String) :
    wellFormedResult (tool_write_file cfg st p c).2 := by
  unfold tool_write_file
  rcases h : resolve_within_sandbox cfg p with _ | q
  · exact wf_errResult _
  · exact ⟨Or.inl rfl, Or.inr ⟨_, rfl⟩⟩

theorem wf_tool_append_file (cfg : Config) (st : FS) (p c : String) :
    wellFormedResult (tool_append_file cfg st p c).2 := by
  unfold tool_append_file
  rcases h : resolve_within_sandbox cfg p with _ | q
  · exact wf_errResult _
  · exact ⟨Or.inl rfl, Or.inr ⟨_, rfl⟩⟩

theorem wf_tool_list_directory (cfg : Config) (st : FS) (p : String) :
    wellFormedResult (tool_list_directory cfg st p) := by
  unfold tool_list_directory
  rcases h : resolve_within_sandbox cfg p with _ | q
  · exact wf_errResult _
  · dsimp only
    by_cases hd : st.isDir q
    · simp only [hd, Bool.not_true, Bool.false_eq_true, if_false]
      exact ⟨Or.inl rfl, Or.inr ⟨_, rfl⟩⟩
    · simp only [hd, Bool.not_false, Bool.false_eq_true, if_true]
      exact wf_errResult _

theorem wf_tool_create_directory (cfg : Config) (st : FS) (p : String) :
    wellFormedResult (tool_create_directory cfg st p).2 := by
  unfold tool_create_directory
  rcases h : resolve_within_sandbox cfg p with _ | q
  · exact wf_errResult _
  · exact ⟨Or.inl rfl, Or.inr ⟨_, rfl⟩⟩

theorem wf_tool_run_command (cfg : Config) (a : RunArgs) :
    wellFormedResult (tool_run_command cfg a) := by
  unfold tool_run_command
  rcases h : run_command_outcome cfg a with sp | e
  · dsimp only
    rcases h2 : cfg.oracle sp with ⟨rc, out, err⟩ | _
    · refine ⟨?_, Or.inr ⟨_, rfl⟩⟩
      by_cases hrc : rc = 0
      · simp [getKey, hrc]
      · simp [getKey, hrc]
    · exact wf_errResult _
  · exact wf_errResult _

theorem wf_tool_execute_python (cfg : Config) (st : FS) (a : PyArgs) :
    wellFormedResult (tool_execute_python cfg st a) := by
  unfold tool_execute_python
  rcases h : execute_python_outcome cfg st a with sp | e
  · dsimp only
    rcases h2 : cfg.oracle sp with ⟨rc, out, err⟩ | _
    · refine ⟨?_, Or.inr ⟨_, rfl⟩⟩
      by_cases hrc : rc = 0
      · simp [getKey, hrc]
      · simp [getKey, hrc]
    · exact wf_errResult _
  · exact wf_errResult _

theorem wf_dispatchTool (cfg : Config) (st : FS) (name : String) (args : Args) :
    wellFormedResult (dispatchTool cfg st name args).2 := by
  unfold dispatchTool
  split
  · exact wf_tool_read_file ..
  · exact wf_tool_write_file ..
  · exact wf_tool_append_file ..
  · exact wf_tool_list_directory ..
  · exact wf_tool_create_directory ..
  · exact wf_tool_execute_python ..
  · exact wf_tool_run_command ..
  · exact wf_errResult _

theorem wf_execute_tool_checked (cfg : Config) (st : FS) (name : String)
    (args : Args) (x : FS × ToolResult)
    (h : execute_tool_checked cfg st name args = .ok x) :
    wellFormedResult x.2 := by
  unfold execute_tool_checked at h
  rcases hsig : toolSig name with _ | ⟨req, opt⟩ <;> rw [hsig] at h <;>
    dsimp only at h
  · injection h with h2
    rw [← h2]
    exact wf_errResult _
  · rcases hb : bindError name req opt args with _ | e <;> rw [hb] at h <;>
      dsimp only at h
    · injection h with h2
      rw [← h2]
      exact wf_dispatchTool ..
    · exact absurd h (by simp)

/-- **C3.** For every tool name and argument mapping, `execute_tool` returns
a well-formed `ToolResult` (a Boolean success flag with a payload or an error
string), and any internal fault raised during the tool's execution (an
`Except.error` of the checked body, e.g. a keyword-binding `TypeError`) is
caught and converted into a failed ToolResult with that error string — it is
never propagated to the caller, and the state is left unchanged. -/
theorem c3_execute_tool_no_propagation (cfg : Config) (st : FS)
    (name : String) (args : Args) :
    wellFormedResult (execute_tool cfg st name args).2 ∧
    (∀ e, execute_tool_checked cfg st name args = .error e →
      execute_tool cfg st name args = (st, errResult e)) := by
  constructor
  · unfold execute_tool
    cases hc : execute_tool_checked cfg st name args with
    | error e => exact wf_errResult e
    | ok x => exact wf_execute_tool_checked cfg st name args x hc
  · intro e h
    unfold execute_tool
    rw [h]

/-- Witness for C3: a call of `read_file` with an unexpected keyword raises
a binding `TypeError` in the checked body, and `execute_tool` converts it to
a failed result without touching the state. -/
theorem c3_execute_tool_no_propagation_witness :
    execute_tool_checked cfgS ⟨[], []⟩ "read_file" [("bogus", "1")] =
      .error ("tool_read_file() got an unexpected keyword argument " ++
        quoteName "bogus") ∧
    execute_tool cfgS ⟨[], []⟩ "read_file" [("bogus", "1")] =
      (⟨[], []⟩, errResult
        ("tool_read_file() got an unexpected keyword argument " ++
          quoteName "bogus")) := by
  refine ⟨by rfl, ?_⟩
  exact (c3_execute_tool_no_propagation cfgS ⟨[], []⟩ "read_file"
    [("bogus", "1")]).2 _ (by rfl)

theorem lastParamName_strip_ne_empty {s n : String}
    (h : lastParamName s = some n) : pyStrip s ≠ "" := by
  intro hc
  unfold lastParamName at h
  rw [hc] at h
  simp at h

theorem argsGet_map_set (k v : String) (args : Args)
    (h : (argsGet args k).isSome) :
    argsGet (args.map (fun kv => if kv.1 = k then (k, v) else kv)) k =
      some v := by
  induction args with
  | nil => simp [argsGet] at h
  | cons kv rest ih =>
    by_cases hk : kv.1 = k
    · simp only [List.map_cons, hk, if_pos]
      simp [argsGet, List.find?]
    · simp only [List.map_cons, if_neg hk]
      have h2 : (argsGet rest k).isSome := by
        simpa [argsGet, List.find?_cons_of_neg, hk] using h
      simpa [argsGet, List.find?_cons_of_neg, hk] using ih h2

theorem argsGet_append_new (k v : String) (args : Args)
    (h : argsGet args k = none) :
    argsGet (args ++ [(k, v)]) k = some v := by
  induction args with
  | nil => simp [argsGet, List.find?]
  | cons kv rest ih =>
    by_cases hk : kv.1 = k
    · exfalso
      simp [argsGet, List.find?_cons_of_pos, hk] at h
    · have h2 : argsGet rest k = none := by
        simpa [argsGet, List.find?_cons_of_neg, hk] using h
      simpa [argsGet, List.find?_cons_of_neg, hk] using ih h2

/-- Python dict assignment always leaves the assigned value at the key. -/
theorem argsGet_dinsert (args : Args) (k v : String) :
    argsGet (dinsert args k v) k = some v := by
  unfold dinsert
  by_cases h : (argsGet args k).isSome
  · rw [if_pos h]
    exact argsGet_map_set k v args h
  · rw [if_neg h]
    exact argsGet_append_new k v args (by
      cases hx : argsGet args k with
      | none => rfl
      | some _ => rw [hx] at h; simp at h)

/-- **C4.** For every argument body containing a triple-quote marker with at
least two occurrences, the entire span between the first and second
occurrences of the chosen marker becomes, verbatim, the value of the
parameter named by the identifier adjacent to the trailing `=` before the
opening marker; the span is never split on commas, newlines or `=`
characters it contains and no unescaping is applied (the bound value is the
span itself, character for character). -/
theorem c4_triple_quoted_verbatim (body pre mid suf pname : String)
    (hsplit : pySplit3 (pyStrip body) (chooseMarker (pyStrip body)) =
      [pre, mid, suf])
    (hmark : containsSub (pyStrip body) sqs3 ∨ containsSub (pyStrip body) dqs3)
    (hname : lastParamName pre = some pname) :
    argsGet (parseArgsBody body) pname = some mid := by
  have hne : pyStrip body ≠ "" := by
    intro hc
    rw [hc] at hmark
    revert hmark
    decide
  have hpre : pyStrip pre ≠ "" := lastParamName_strip_ne_empty hname
  unfold parseArgsBody
  rw [if_neg hne]
  dsimp only
  rw [if_pos hmark]
  unfold parseTripleBody
  dsimp only
  rw [hsplit]
  dsimp only
  rw [if_pos hpre, hname]
  exact argsGet_dinsert ..

/-- The sample argument body of the C4 witness:
`file_path='t.py', content='''a,b=c⏎d'''`. -/
def c4body : String :=
  "file_path=" ++ sqs ++ "t.py" ++ sqs ++ ", content=" ++ sqs3 ++
    "a,b=c\nd" ++ sqs3

/-- The text before the opening marker in `c4body`. -/
def c4pre : String := "file_path=" ++ sqs ++ "t.py" ++ sqs ++ ", content="

/-- Witness for C4: in the sample body the span `a,b=c⏎d` (embedded comma,
`=`, newline) is bound verbatim to `content`, and the simple parameter
before it still parses. -/
theorem c4_triple_quoted_verbatim_witness :
    pySplit3 (pyStrip c4body) (chooseMarker (pyStrip c4body)) =
      [c4pre, "a,b=c\nd", ""] ∧
    (containsSub (pyStrip c4body) sqs3 ∨ containsSub (pyStrip c4body) dqs3) ∧
    lastParamName c4pre = some "content" ∧
    argsGet (parseArgsBody c4body) "content" = some "a,b=c\nd" ∧
    argsGet (parseArgsBody c4body) "file_path" = some "t.py" := by
  refine ⟨by decide, Or.inl (by decide), by decide, ?_, by decide⟩
  exact c4_triple_quoted_verbatim c4body c4pre "a,b=c\nd" "" "content"
    (by decide) (Or.inl (by decide)) (by decide)

/-- The escape heuristic never fires on content without a literal `\n` or
`\t`. -/
theorem should_unescape_false_of_no_escapes {content : String}
    (h1 : containsSub content "\\n" = false)
    (h2 : containsSub content "\\t" = false) :
    should_unescape_model_output content = false := by
  unfold should_unescape_model_output
  rw [h1, h2]
  simp

/-- Write-time normalization is the identity on content without a literal
`\n` or `\t`. -/
theorem normalizeContent_id {content : String}
    (h1 : containsSub content "\\n" = false)
    (h2 : containsSub content "\\t" = false) :
    normalizeContent content = content := by
  unfold normalizeContent
  rw [should_unescape_false_of_no_escapes h1 h2]
  simp

/-- Reading back a just-written path returns the written content. -/
theorem readF_writeF (st : FS) (p : AbsPath) (c : String) :
    (st.writeF p c).readF p = some c := by
  unfold FS.writeF FS.readF
  simp [List.find?]

/-- **C5.** For every content string containing no literal `\n` and no
literal `\t`, and every path resolving inside the sandbox, `write_file`
succeeds and a subsequent `read_file` of the same path succeeds and returns
the content byte-identically (the escape-normalization heuristic is a no-op
on such content). -/
theorem c5_write_read_roundtrip (cfg : Config) (st : FS) (p content : String)
    (q : AbsPath)
    (h1 : containsSub content "\\n" = false)
    (h2 : containsSub content "\\t" = false)
    (hq : resolve_within_sandbox cfg p = some q) :
    isSuccess (tool_write_file cfg st p content).2 = true ∧
    tool_read_file cfg (tool_write_file cfg st p content).1 p =
      [("success", .pbool true), ("content", .pstr content),
       ("message", .pstr ("Successfully read " ++ toString content.length ++
         " characters"))] := by
  have hnorm : normalizeContent content = content := normalizeContent_id h1 h2
  unfold tool_write_file
  rw [hq]
  dsimp only
  rw [hnorm]
  constructor
  · simp [isSuccess, getKey, List.find?]
  · unfold tool_read_file
    rw [hq]
    dsimp only
    rw [readF_writeF]

/-- Witness for C5: writing `hello world` (no literal escapes) inside the
sandbox and reading it back returns it unchanged. -/
theorem c5_write_read_roundtrip_witness :
    containsSub "hello world" "\\n" = false ∧
    containsSub "hello world" "\\t" = false ∧
    resolve_within_sandbox cfgS "a/b.txt" = some ["s", "a", "b.txt"] ∧
    isSuccess (tool_write_file cfgS ⟨[], []⟩ "a/b.txt" "hello world").2 = true ∧
    tool_read_file cfgS (tool_write_file cfgS ⟨[], []⟩ "a/b.txt" "hello world").1
        "a/b.txt" =
      [("success", .pbool true), ("content", .pstr "hello world"),
       ("message", .pstr "Successfully read 11 characters")] := by
  have h := c5_write_read_roundtrip cfgS ⟨[], []⟩ "a/b.txt" "hello world"
    ["s", "a", "b.txt"] (by decide) (by decide) (by decide)
  exact ⟨by decide, by decide, by decide, h.1, h.2⟩

/-- `Char.toLower` fixes ASCII digits. -/
theorem toLower_digit {c : Char} (h : isDigitCh c = true) :
    Char.toLower c = c := by
  unfold isDigitCh at h
  simp only [Bool.and_eq_true, decide_eq_true_eq] at h
  unfold Char.toLower
  rw [if_neg (by omega)]

/-- A successful digit-run parse starts at a digit. -/
theorem parseUDigits_head {l : List Char} {x : Nat × Nat × List Char}
    (h : parseUDigits l = some x) :
    ∃ c cs, l = c :: cs ∧ isDigitCh c = true := by
  unfold parseUDigits at h
  cases l with
  | nil => exact absurd h (by simp)
  | cons c cs =>
    dsimp only at h
    by_cases hd : isDigitCh c = true
    · exact ⟨c, cs, rfl, hd⟩
    · rw [if_neg hd] at h
      exact absurd h (by simp)

/-- Any string `int` accepts, `float` accepts with the same (finite)
value. -/
theorem pyFloat_of_pyInt {s : String} {n : Int} (h : pyInt s = some n) :
    pyFloat s = some (.fin (n : ℚ)) := by
  unfold pyInt at h
  unfold pyFloat
  dsimp only at h ⊢
  rcases hss : stripSign (pyStrip s).data with ⟨neg, r⟩
  rw [hss] at h
  dsimp only at h ⊢
  rcases hpd : parseUDigits r with _ | ⟨m, k, rest⟩ <;> rw [hpd] at h
  · exact absurd h (by simp)
  · cases rest with
    | cons c2 rest2 => exact absurd h (by simp)
    | nil =>
      obtain ⟨c, cs, hr, hc⟩ := parseUDigits_head hpd
      have hlow : lowerChars r = c :: lowerChars cs := by
        rw [hr]
        unfold lowerChars
        rw [List.map_cons, toLower_digit hc]
      have hhead : ∀ (d : Char) (ds : List Char), isDigitCh d = false →
          c :: lowerChars cs = d :: ds → False := by
        intro d ds hdf heq
        obtain ⟨h1, _⟩ := List.cons.inj heq
        rw [h1] at hc
        exact absurd hc (by simp [hdf])
      have hinf : ¬ (lowerChars r = "inf".data ∨
          lowerChars r = "infinity".data) := by
        rw [hlow]
        rintro (heq | heq)
        · exact hhead 'i' _ (by decide) heq
        · exact hhead 'i' _ (by decide) heq
      have hnan : ¬ (lowerChars r = "nan".data) := by
        rw [hlow]
        intro heq
        exact hhead 'n' _ (by decide) heq
      rw [if_neg hinf, if_neg hnan]
      have hbody : parseFloatBody r = some (mkRat m 1) := by
        unfold parseFloatBody
        rw [hpd]
      rw [hbody]
      dsimp only at h ⊢
      injection h with hn
      rw [← hn]
      cases neg <;> simp

/-- **C6, counterexample.** The claim that `run_command`'s timeout coercion
behaves identically to `execute_python`'s is false: on the fractional numeric
string `"1.5"`, `execute_python` coerces via `float` and proceeds to spawn
with timeout `1.5`, while `run_command` coerces via `int` and returns the
invalid-timeout error. -/
theorem c6_timeout_coercion_counterexample :
    validate_timeout_run (.str "1.5") = .error "Timeout must be a valid number" ∧
    validate_timeout_py (.str "1.5") = .ok (.fin (mkRat 3 2)) ∧
    run_command_outcome cfgS ⟨"echo hi", .str "1.5", none, none⟩ =
      .fail "Timeout must be a valid number" ∧
    execute_python_outcome cfgS ⟨[], []⟩ ⟨some "x=1", none, .str "1.5"⟩ =
      .spawn ⟨["PYEXE", "-c", "x=1"], .fin (mkRat 3 2), ["s"], none⟩ :=
  ⟨by decide, by decide, by decide, by decide⟩

/-- **C6, amended.** The two timeout coercions agree on all numeric (non-
string) values, on every integer-literal string (both coerce it to the same
number), and on every string neither `int` nor `float` accepts (both return
the invalid-timeout error); they differ on strings `float` accepts but `int`
rejects, such as `"1.5"` (see the counterexample). -/
theorem c6_timeout_coercion_amended :
    (∀ x : PyNum, validate_timeout_run (.num x) = validate_timeout_py (.num x)) ∧
    (∀ s n, pyInt s = some n →
      validate_timeout_run (.str s) = validate_timeout_py (.str s)) ∧
    (∀ s, pyInt s = none → pyFloat s = none →
      validate_timeout_run (.str s) = .error "Timeout must be a valid number" ∧
      validate_timeout_py (.str s) = .error "Timeout must be a valid number") := by
  refine ⟨fun x => rfl, ?_, ?_⟩
  · intro s n h
    unfold validate_timeout_run validate_timeout_py
    dsimp only
    rw [h, pyFloat_of_pyInt h]
  · intro s h1 h2
    unfold validate_timeout_run validate_timeout_py
    dsimp only
    rw [h1, h2]
    exact ⟨rfl, rfl⟩

/-- Witness for the amended C6: the integer string `"7"` coerces identically
in both tools, and the non-numeric string `"abc"` is rejected identically by
both. -/
theorem c6_timeout_coercion_amended_witness :
    pyInt "7" = some 7 ∧
    validate_timeout_run (.str "7") = validate_timeout_py (.str "7") ∧
    pyInt "abc" = none ∧ pyFloat "abc" = none ∧
    validate_timeout_run (.str "abc") =
      .error "Timeout must be a valid number" ∧
    validate_timeout_py (.str "abc") =
      .error "Timeout must be a valid number" := by
  have h2 := c6_timeout_coercion_amended.2.1 "7" 7 (by rfl)
  have h3 := c6_timeout_coercion_amended.2.2 "abc" (by rfl) (by rfl)
  exact ⟨rfl, h2, rfl, rfl, h3.1, h3.2⟩

/-- A binding `TypeError` makes `execute_tool` return the caught failure with
the state unchanged. -/
theorem execute_tool_bindError (cfg : Config) (st : FS) (name : String)
    (args : Args) (req opt : List String) (e : String)
    (hsig : toolSig name = some (req, opt))
    (hb : bindError name req opt args = some e) :
    execute_tool cfg st name args = (st, errResult e) := by
  unfold execute_tool execute_tool_checked
  rw [hsig]
  dsimp only
  rw [hb]

/-- **C7, counterexample.** The claim that unknown extra keys are ignored is
false: `read_file` with an extra `bogus` key fails with the caught binding
`TypeError`, while the same call without the extra key succeeds — the call
does not behave as if the extra key were absent. -/
theorem c7_extra_keys_counterexample :
    (execute_tool cfgS ⟨[(["s", "f.txt"], "hi")], []⟩ "read_file"
        [("file_path", "f.txt"), ("bogus", "1")]).2 =
      errResult ("tool_read_file() got an unexpected keyword argument " ++
        quoteName "bogus") ∧
    (execute_tool cfgS ⟨[(["s", "f.txt"], "hi")], []⟩ "read_file"
        [("file_path", "f.txt")]).2 =
      [("success", .pbool true), ("content", .pstr "hi"),
       ("message", .pstr "Successfully read 2 characters")] ∧
    (execute_tool cfgS ⟨[(["s", "f.txt"], "hi")], []⟩ "read_file"
        [("file_path", "f.txt"), ("bogus", "1")]).2 ≠
      (execute_tool cfgS ⟨[(["s", "f.txt"], "hi")], []⟩ "read_file"
        [("file_path", "f.txt")]).2 :=
  ⟨by decide, by decide, by decide⟩

/-- **C7, amended.** An argument mapping containing a key the tool does not
declare makes the call fail with a caught `TypeError` result (state
unchanged) — the key is not ignored; a missing required key likewise yields
a caught failed result. -/
theorem c7_binding_typeerror (cfg : Config) (st : FS) (name : String)
    (args : Args) (req opt : List String) (k : String)
    (hsig : toolSig name = some (req, opt)) :
    ((∃ v, (k, v) ∈ args) → ¬ k ∈ req → ¬ k ∈ opt →
      ∃ e, execute_tool cfg st name args = (st, errResult e)) ∧
    (k ∈ req → argsGet args k = none →
      ∃ e, execute_tool cfg st name args = (st, errResult e)) := by
  constructor
  · rintro ⟨v, hv⟩ h1 h2
    have hsome : (args.find? (fun kv => ¬ (kv.1 ∈ req ∨ kv.1 ∈ opt))).isSome := by
      rw [List.find?_isSome]
      exact ⟨(k, v), hv, by simp [h1, h2]⟩
    obtain ⟨kv, hkv⟩ := Option.isSome_iff_exists.mp hsome
    have hne : bindError name req opt args ≠ none := by
      unfold bindError
      rw [hkv]
      simp
    obtain ⟨e, he⟩ := Option.ne_none_iff_exists'.mp hne
    exact ⟨e, execute_tool_bindError cfg st name args req opt e hsig he⟩
  · intro hreq hnone
    cases hf : args.find? (fun kv => ¬ (kv.1 ∈ req ∨ kv.1 ∈ opt)) with
    | some kv =>
      have hne : bindError name req opt args ≠ none := by
        unfold bindError
        rw [hf]
        simp
      obtain ⟨e, he⟩ := Option.ne_none_iff_exists'.mp hne
      exact ⟨e, execute_tool_bindError cfg st name args req opt e hsig he⟩
    | none =>
      have hmem : k ∈ req.filter (fun k => (argsGet args k).isNone) :=
        List.mem_filter.mpr ⟨hreq, by simp [hnone]⟩
      rcases hfil : req.filter (fun k => (argsGet args k).isNone) with _ | ⟨m, ms⟩
      · rw [hfil] at hmem
        exact absurd hmem (by simp)
      · have hne : bindError name req opt args ≠ none := by
          unfold bindError
          rw [hf, hfil]
          cases ms <;> simp
        obtain ⟨e, he⟩ := Option.ne_none_iff_exists'.mp hne
        exact ⟨e, execute_tool_bindError cfg st name args req opt e hsig he⟩

/-- Witness for the amended C7: `read_file` with only a `bogus` key fails
(unknown key), and with an empty mapping fails (missing `file_path`); both
leave the state unchanged. -/
theorem c7_binding_typeerror_witness :
    toolSig "read_file" = some (["file_path"], []) ∧
    (∃ e, execute_tool cfgS ⟨[], []⟩ "read_file" [("bogus", "1")] =
      (⟨[], []⟩, errResult e)) ∧
    (∃ e, execute_tool cfgS ⟨[], []⟩ "read_file" [] =
      (⟨[], []⟩, errResult e)) := by
  refine ⟨rfl, ?_, ?_⟩
  · exact (c7_binding_typeerror cfgS ⟨[], []⟩ "read_file" [("bogus", "1")]
      ["file_path"] [] "bogus" rfl).1 ⟨"1", by simp⟩ (by decide) (by decide)
  · exact (c7_binding_typeerror cfgS ⟨[], []⟩ "read_file" []
      ["file_path"] [] "file_path" rfl).2 (by decide) rfl

/-- The success message of `write_file` for a given path and
post-normalization length. -/
def writeSuccessMsg (p : String) (n : Nat) : String :=
  "Successfully wrote " ++ toString n ++ " characters to " ++ p

/-- **C8.** In the feedback synthesis, every successful `write_file` whose
`bytes_written` is strictly below the threshold 100 gets the corrective
too-short instruction in place of the normal success message; a successful
write of 100 or more characters gets the normal success message and no
corrective instruction (for any byte count).  `feedbackFor` is a pure
function of the recorded result: no tool is re-invoked. -/
theorem c8_placeholder_threshold (cfg : Config) (st : FS) (p content : String)
    (q : AbsPath) (hq : resolve_within_sandbox cfg p = some q) :
    isSuccess (tool_write_file cfg st p content).2 = true ∧
    (((normalizeContent content).length : Int) < 100 →
      feedbackFor ⟨"write_file", some (tool_write_file cfg st p content).2⟩ =
        correctiveMsg (normalizeContent content).length) ∧
    (100 ≤ ((normalizeContent content).length : Int) →
      feedbackFor ⟨"write_file", some (tool_write_file cfg st p content).2⟩ =
        "✓ write_file: " ++ writeSuccessMsg p (normalizeContent content).length ∧
      ∀ m : Int,
        feedbackFor ⟨"write_file", some (tool_write_file cfg st p content).2⟩ ≠
          correctiveMsg m) := by
  have hr : (tool_write_file cfg st p content).2 =
      [("success", .pbool true),
       ("message", .pstr (writeSuccessMsg p (normalizeContent content).length)),
       ("bytes_written", .pint (normalizeContent content).length)] := by
    unfold tool_write_file writeSuccessMsg
    rw [hq]
  rw [hr]
  refine ⟨by simp [isSuccess, getKey, List.find?], ?_, ?_⟩
  · intro hlt
    simp [feedbackFor, isSuccess, getKey, List.find?, bytesOrZero, strKeyOr, hlt]
  · intro hge
    have hnlt : ¬ (((normalizeContent content).length : Int) < 100) :=
      not_lt.mpr hge
    constructor
    · simp [feedbackFor, isSuccess, getKey, List.find?, bytesOrZero, strKeyOr,
        hnlt]
    · intro m heq
      rw [show feedbackFor ⟨"write_file",
          some [("success", .pbool true),
            ("message", .pstr (writeSuccessMsg p (normalizeContent content).length)),
            ("bytes_written", .pint (normalizeContent content).length)]⟩ =
          "✓ write_file: " ++ writeSuccessMsg p (normalizeContent content).length from by
        simp [feedbackFor, isSuccess, getKey, List.find?, bytesOrZero, strKeyOr,
          hnlt]] at heq
      have h1 : ("✓ write_file: " ++
          writeSuccessMsg p (normalizeContent content).length).data.head? =
          some (Char.ofNat 10003) := rfl
      rw [heq] at h1
      have h2 : (correctiveMsg m).data.head? = some (Char.ofNat 10060) := by
        unfold correctiveMsg
        rfl
      rw [h2] at h1
      exact absurd h1 (by decide)

/-- Witness for C8: a 29-character write gets the corrective instruction; a
150-character write gets the normal success message. -/
theorem c8_placeholder_threshold_witness :
    resolve_within_sandbox cfgS "n.txt" = some ["s", "n.txt"] ∧
    feedbackFor ⟨"write_file",
        some (tool_write_file cfgS ⟨[], []⟩ "n.txt"
          (String.mk (List.replicate 29 'a'))).2⟩ =
      correctiveMsg 29 ∧
    feedbackFor ⟨"write_file",
        some (tool_write_file cfgS ⟨[], []⟩ "n.txt"
          (String.mk (List.replicate 150 'a'))).2⟩ =
      "✓ write_file: " ++ writeSuccessMsg "n.txt" 150 := by
  have h29 := c8_placeholder_threshold cfgS ⟨[], []⟩ "n.txt"
    (String.mk (List.replicate 29 'a')) ["s", "n.txt"] (by decide)
  have h150 := c8_placeholder_threshold cfgS ⟨[], []⟩ "n.txt"
    (String.mk (List.replicate 150 'a')) ["s", "n.txt"] (by decide)
  have e29 : (normalizeContent (String.mk (List.replicate 29 'a'))).length = 29 := by
    decide
  have e150 : (normalizeContent (String.mk (List.replicate 150 'a'))).length = 150 := by
    decide
  refine ⟨by decide, ?_, ?_⟩
  · have := h29.2.1 (by rw [e29]; decide)
    rwa [e29] at this
  · have := (h150.2.2 (by rw [e150]; decide)).1
    rwa [e150] at this

/-- **C9, counterexample.** The claim that a successful `read_file` result
contains the file's line count is false: reading a two-line file returns
exactly the keys `success`, `content` and `message` (the message reports the
character count, 5, not the line count, 2) — no key carries a line count. -/
theorem c9_read_no_line_count_counterexample :
    tool_read_file cfgS ⟨[(["s", "f.txt"], "ab\ncd")], []⟩ "f.txt" =
      [("success", .pbool true), ("content", .pstr "ab\ncd"),
       ("message", .pstr "Successfully read 5 characters")] ∧
    getKey (tool_read_file cfgS ⟨[(["s", "f.txt"], "ab\ncd")], []⟩ "f.txt")
      "lines" = none ∧
    getKey (tool_read_file cfgS ⟨[(["s", "f.txt"], "ab\ncd")], []⟩ "f.txt")
      "line_count" = none :=
  ⟨by decide, by decide, by decide⟩

/-- **C9, amended.** For every existing readable file inside the sandbox,
`read_file` returns a success result containing the file's content and a
message reporting its character count — and nothing else (in particular no
line count). -/
theorem c9_read_success_fields (cfg : Config) (st : FS) (p : String)
    (q : AbsPath) (content : String)
    (hq : resolve_within_sandbox cfg p = some q)
    (hf : st.readF q = some content) :
    tool_read_file cfg st p =
      [("success", .pbool true), ("content", .pstr content),
       ("message", .pstr ("Successfully read " ++ toString content.length ++
         " characters"))] := by
  unfold tool_read_file
  rw [hq]
  dsimp only
  rw [hf]

/-- Witness for the amended C9: reading a concrete sandboxed file returns
content plus the character-count message. -/
theorem c9_read_success_fields_witness :
    resolve_within_sandbox cfgS "g.txt" = some ["s", "g.txt"] ∧
    FS.readF ⟨[(["s", "g.txt"], "hello")], []⟩ ["s", "g.txt"] = some "hello" ∧
    tool_read_file cfgS ⟨[(["s", "g.txt"], "hello")], []⟩ "g.txt" =
      [("success", .pbool true), ("content", .pstr "hello"),
       ("message", .pstr "Successfully read 5 characters")] := by
  refine ⟨by decide, by decide, ?_⟩
  exact c9_read_success_fields cfgS ⟨[(["s", "g.txt"], "hello")], []⟩ "g.txt"
    ["s", "g.txt"] "hello" (by decide) (by decide)

/-- Lexical resolution of a path free of empty, `.` and `..` components is
plain concatenation. -/
theorem normPath_plain (start : AbsPath) (l : List String)
    (h : ∀ c ∈ l, c ≠ "" ∧ c ≠ "." ∧ c ≠ "..") :
    normPath start l = start ++ l := by
  induction l generalizing start with
  | nil => simp [normPath]
  | cons c rest ih =>
    obtain ⟨h1, h2, h3⟩ := h c (List.mem_cons_self c rest)
    unfold normPath
    rw [if_neg (by simp [h1, h2]), if_neg h3,
      ih (start ++ [c]) (fun d hd => h d (List.mem_cons_of_mem c hd))]
    simp

/-- **C10, counterexample.** The claim that, with the process working
directory outside the sandbox root, every relative-path file-tool call is
denied (whenever the same name anchored at the root would be inside) is
false: with cwd `/x` and root `/r`, the relative path `../r/f` anchors at
the cwd, climbs back into the root, resolves to `/r/f`, and `read_file`
succeeds — even though the root-anchored reading also names a location
inside the root. -/
theorem c10_relative_reentry_counterexample :
    List.isPrefixOf cfgX.sandboxRoot cfgX.cwd = false ∧
    normPath cfgX.sandboxRoot (pathComps "../r/f") = ["r", "f"] ∧
    List.isPrefixOf cfgX.sandboxRoot
      (normPath cfgX.sandboxRoot (pathComps "../r/f")) = true ∧
    resolve_within_sandbox cfgX "../r/f" = some ["r", "f"] ∧
    isSuccess (tool_read_file cfgX ⟨[(["r", "f"], "data")], []⟩ "../r/f") =
      true :=
  ⟨by decide, by decide, by decide, by decide, by decide⟩

/-- **C10, amended.** The sandbox resolver anchors relative paths at the
process working directory, not at the sandbox root: a relative input
resolves to `(cwd / input).resolve()` — for a plain relative name (no
empty, `.` or `..` segments) this is the concatenation `cwd ++ comps`.
Consequently, when the working directory is neither inside the sandbox root
nor an ancestor of it, every such plain relative name is Denied, even
though the same name anchored at the sandbox root would name a location
inside it.  (A relative path containing `..` segments may still resolve
back inside the root and be allowed — see the counterexample.) -/
theorem c10_resolver_cwd_anchored (cfg : Config) (s : String)
    (hrel : isAbsStr s = false)
    (h1 : List.isPrefixOf cfg.sandboxRoot cfg.cwd = false)
    (h2 : List.isPrefixOf cfg.cwd cfg.sandboxRoot = false)
    (hplain : ∀ c ∈ pathComps s, c ≠ "" ∧ c ≠ "." ∧ c ≠ "..") :
    resolvePath cfg.cwd s = cfg.cwd ++ pathComps s ∧
    List.isPrefixOf cfg.sandboxRoot
      (normPath cfg.sandboxRoot (pathComps s)) = true ∧
    resolve_within_sandbox cfg s = none := by
  have hres : resolvePath cfg.cwd s = cfg.cwd ++ pathComps s := by
    unfold resolvePath
    rw [hrel]
    simp [normPath_plain cfg.cwd (pathComps s) hplain]
  refine ⟨hres, ?_, ?_⟩
  · rw [normPath_plain cfg.sandboxRoot (pathComps s) hplain]
    simp
  · unfold resolve_within_sandbox
    rw [hres]
    rw [if_neg ?_]
    intro hpre
    have hpre2 : cfg.sandboxRoot <+: cfg.cwd ++ pathComps s :=
      List.isPrefixOf_iff_prefix.mp hpre
    rcases List.prefix_or_prefix_of_prefix hpre2
        (List.prefix_append cfg.cwd (pathComps s)) with hp | hp
    · rw [← List.isPrefixOf_iff_prefix] at hp
      rw [hp] at h1
      cases h1
    · rw [← List.isPrefixOf_iff_prefix] at hp
      rw [hp] at h2
      cases h2

/-- Witness for the amended C10: with cwd `/x` outside root `/r`, the plain
relative name `f.txt` resolves to `/x/f.txt` (cwd-anchored) and is Denied,
although `/r/f.txt` would lie inside the root. -/
theorem c10_resolver_cwd_anchored_witness :
    isAbsStr "f.txt" = false ∧
    List.isPrefixOf cfgX.sandboxRoot cfgX.cwd = false ∧
    List.isPrefixOf cfgX.cwd cfgX.sandboxRoot = false ∧
    resolvePath cfgX.cwd "f.txt" = cfgX.cwd ++ pathComps "f.txt" ∧
    List.isPrefixOf cfgX.sandboxRoot
      (normPath cfgX.sandboxRoot (pathComps "f.txt")) = true ∧
    resolve_within_sandbox cfgX "f.txt" = none := by
  have h := c10_resolver_cwd_anchored cfgX "f.txt" (by decide) (by decide)
    (by decide) (by decide)
  exact ⟨by decide, by decide, by decide, h.1, h.2.1, h.2.2⟩

end WorkingAssistant


